import Mathlib

/-!
Verification development for the TaskIQ auth server (`src/app.py`), a small
FastAPI application that exchanges an OAuth authorization code for
credentials, resolves the email of the authenticated user, persists the
credential bundle to a per-user JSON file, and answers token-presence
queries.

The embedding below is shallow: the filesystem token store is a list of
(path, file-content) pairs, external effects (the OAuth library, the
userinfo HTTP call, the clock) are passed in as explicit parameters, and
Python-specific semantics that the handlers rely on (string truthiness of
`if error:` / `if not code:`, the absolute-path override of `os.path.join`) are
modelled explicitly.
-/

namespace TaskIQ

/-! ### Identifier sanitization and token paths (app.py lines 71 and 194) -/

/-- Character-level model of the expression `user_id.replace` applied to the
pattern `@` and replacement `_at_`: every
occurrence of the single character `@` is replaced by the four characters
`_at_`.  Since the pattern is a single character, occurrences are disjoint
and the Python `str.replace` acts independently on each. -/
def sanitizeChars : List Char → List Char
  | [] => []
  | c :: cs =>
    if c = '@' then '_' :: 'a' :: 't' :: '_' :: sanitizeChars cs
    else c :: sanitizeChars cs

/-- String version of the sanitization `user_id.replace` with pattern `@`
and replacement `_at_`. -/
def sanitize (s : String) : String := ⟨sanitizeChars s.data⟩

/-- The storage filename: the sanitized identifier followed by `.json`,
computed
identically by `save_token` (line 71) and `get_token` (line 194). -/
def tokenFileName (user_id : String) : String := sanitize user_id ++ ".json"

/-- Default of the `TOKEN_STORAGE_DIR` environment variable (line 39). -/
def TOKEN_STORAGE_DIR : String := "./tokens"

/-- Whether a POSIX path is absolute (begins with a slash). -/
def isAbsolute (s : String) : Bool :=
  match s.data with
  | '/' :: _ => true
  | _ => false

/-- POSIX `os.path.join(d, f)` for a directory `d` that is nonempty and
does not end in a slash: if `f` is absolute it overrides `d` entirely,
otherwise the components are joined with a single slash. -/
def os_path_join (d f : String) : String :=
  if isAbsolute f then f else d ++ "/" ++ f

/-- The full token path `os.path.join(TOKEN_STORAGE_DIR, ...)` used by both
`save_token` and `get_token`. -/
def token_path (user_id : String) : String :=
  os_path_join TOKEN_STORAGE_DIR (tokenFileName user_id)

/-! ### The token store (the filesystem, restricted to the token files) -/

/-- The content of a file as far as the handlers observe it: either a JSON
object with string fields (what `json.load` returns on the files this
program writes), or content on which opening/`json.load` raises, carrying
the message of the exception. -/
inductive FileContent where
  | obj (fields : List (String × String))
  | malformed (errMsg : String)
deriving DecidableEq, Repr

/-- The filesystem as a mapping from paths to file contents. -/
abbrev Store := List (String × FileContent)

/-- `os.path.exists` + `open(path, "r")`: the content at a path, if any. -/
def readFile (s : Store) (path : String) : Option FileContent :=
  List.lookup path s

/-- `open(path, "w")` + `json.dump`: writing replaces whatever was at the
path; a filesystem holds at most one file per path. -/
def writeFile (s : Store) (path : String) (c : FileContent) : Store :=
  (path, c) :: s.filter (fun e => e.1 != path)

/-- How many files the store holds at a given path. -/
def countKey (s : Store) (path : String) : Nat :=
  (s.filter (fun e => e.1 == path)).length

/-! ### save_token (app.py lines 68-80) and get_token (lines 191-210) -/

/-- `save_token(user_id, credentials)`, success path: writes
`{"token": credentials.to_json(), "created_at": datetime.now().isoformat()}`
to the token path and returns that path.  `credentials_json` stands for
`credentials.to_json()` and `now_iso` for `datetime.now().isoformat()`,
both produced outside the function. -/
def save_token (store : Store) (user_id : String)
    (credentials_json : String) (now_iso : String) : Store × String :=
  let path := os_path_join TOKEN_STORAGE_DIR (tokenFileName user_id)
  let token_data := FileContent.obj
    [("token", credentials_json), ("created_at", now_iso)]
  (writeFile store path token_data, path)

/-- The JSON body returned by `GET /token/{user_id}`: `created_at = none`
models the `created_at` key being absent from the response (the two
failure branches) or `token_data.get("created_at")` returning `None`. -/
structure TokenStatus where
  has_token : Bool
  created_at : Option String
  message : String
deriving DecidableEq, Repr

/-- `get_token(user_id)` (`GET /token/{user_id}`): missing file and
unreadable file both degrade to `has_token: false`; a readable file
reports `has_token: true` with the `created_at` value of the file. -/
def get_token (store : Store) (user_id : String) : TokenStatus :=
  let path := os_path_join TOKEN_STORAGE_DIR (tokenFileName user_id)
  match readFile store path with
  | none => ⟨false, none, "No token found for user"⟩
  | some (FileContent.obj fields) =>
      ⟨true, List.lookup "created_at" fields, "Token found for user"⟩
  | some (FileContent.malformed e) =>
      ⟨false, none, "Error reading token: " ++ e⟩

/-! ### The OAuth callback handler `GET /auth/google` (app.py lines 99-171) -/

/-- Python truthiness of an `Optional[str]` FastAPI query parameter, as
tested by `if error:`, `if not code:` and `if not user_email:`: `None` and
the empty string are falsy, every other string is truthy. -/
def truthy : Option String → Bool
  | none => false
  | some s => !s.data.isEmpty

/-- An HTTP response as far as the claims observe it. -/
structure HttpResponse where
  status : Nat
  body : String
deriving DecidableEq, Repr

/-- Outcome of one callback request: the rendered response, whether the
handler entered the exchange step (constructed the flow / called
`fetch_token`), and the resulting filesystem state. -/
structure CallbackResult where
  response : HttpResponse
  exchangeInvoked : Bool
  store : Store
deriving DecidableEq, Repr

/-- The external world the `try` block of `auth_callback` interacts with:
flow construction from the client-secrets file, the code-for-token
exchange, and the userinfo fetch.  Each failure constructor carries the
`str(e)` text that the `except Exception` handler renders; `ok` carries
`credentials.to_json()` and `user_info.get("email")`. -/
inductive OAuthWorld where
  | flowError (msg : String)
  | exchangeError (msg : String)
  | userInfoError (msg : String)
  | ok (credentials_json : String) (email : Option String)
deriving DecidableEq, Repr

/-- The `error_html` f-string rendered for the `error` query parameter and
for exceptions (lines 103-112 and 161-170); `\x7b`/`\x7d` are literal
braces. -/
def errorHtml (err : String) : String :=
  "\n        <html>\n            <head><title>Authentication Error</title></head>\n            <body>\n                <h1>Authentication Error</h1>\n                <p>Error: "
  ++ err ++
  "</p>\n                <p>Please close this window and try again.</p>\n            </body>\n        </html>\n        "

/-- The `success_html` f-string (lines 137-156), with the user email
spliced in twice; `\x7b`/`\x7d` are literal braces. -/
def successHtml (email : String) : String :=
  "\n        <html>\n            <head><title>Authentication Successful</title></head>\n            <body>\n                <h1>Authentication Successful</h1>\n                <p>You have successfully authenticated with Google.</p>\n                <p>Email: "
  ++ email ++
  "</p>\n                <p>You may now close this window and return to TaskIQ.</p>\n                <script>\n                    // Send message to telegram bot (if opened through Telegram)\n                    if (window.TelegramWebviewProxy) \x7b\n                        window.TelegramWebviewProxy.postEvent(\x27auth_complete\x27, \x7b\n                            email: \x27"
  ++ email ++
  "\x27,\n                            success: true\n                        \x7d);\n                    \x7d\n                </script>\n            </body>\n        </html>\n        "

/-- `auth_callback(request, code, state, error)`: the `state` parameter is
accepted and ignored by the source, so it is omitted here.  `now_iso`
stands for the `datetime.now().isoformat()` read inside `save_token`. -/
def auth_callback (world : OAuthWorld) (store : Store) (now_iso : String)
    (code : Option String) (error : Option String) : CallbackResult :=
  if truthy error then
    ⟨⟨400, errorHtml (error.getD "")⟩, false, store⟩
  else if !truthy code then
    ⟨⟨400, "No authorization code received"⟩, false, store⟩
  else
    match world with
    | OAuthWorld.flowError msg => ⟨⟨500, errorHtml msg⟩, true, store⟩
    | OAuthWorld.exchangeError msg => ⟨⟨500, errorHtml msg⟩, true, store⟩
    | OAuthWorld.userInfoError msg => ⟨⟨500, errorHtml msg⟩, true, store⟩
    | OAuthWorld.ok credentials_json email =>
      if !truthy email then
        ⟨⟨400, "Could not retrieve user email"⟩, true, store⟩
      else
        let user_email := email.getD ""
        ⟨⟨200, successHtml user_email⟩, true,
          (save_token store user_email credentials_json now_iso).1⟩

/-! ### `GET /generate-auth-url` (app.py lines 173-189) -/

/-- Modelled from the spec: `flow.authorization_url(...)` is provided by
the external `google_auth_oauthlib` library, not by this repository.  Per
spec section 4.1 (`buildAuthorizationURL`) it "constructs a provider
consent URL" from the static client configuration, the fixed scopes and
the redirect URI, carrying the keyword arguments the caller passes
(`access_type`, `include_granted_scopes`, `prompt`) as query parameters,
together with a state value the library generates independently of the
arguments of the caller. -/
def authorization_url (access_type include_granted_scopes prompt state : String) :
    String :=
  "https://accounts.google.com/o/oauth2/auth?response_type=code&client_id=CLIENT_ID&redirect_uri=https://taskiq.io/auth/google&scope=openid+email+mail+calendar"
  ++ "&access_type=" ++ access_type
  ++ "&include_granted_scopes=" ++ include_granted_scopes
  ++ "&prompt=" ++ prompt
  ++ "&state=" ++ state

/-- The JSON body returned by `GET /generate-auth-url`. -/
structure AuthUrlResponse where
  auth_url : String
  email : String
deriving DecidableEq, Repr

/-- `generate_auth_url(email)`, success path: builds the authorization URL
with access_type = offline, include_granted_scopes = true and
prompt = consent, and echoes the email back; `lib_state` stands for the
state value the library generates.  The email is not passed to the URL
builder (the comment at lines 184-185 notes the email/state correlation is
not stored). -/
def generate_auth_url (email : String) (lib_state : String) : AuthUrlResponse :=
  { auth_url := authorization_url "offline" "true" "consent" lib_state
    email := email }

/-- `s` contains `pat` as a contiguous substring. -/
def strContains (s pat : String) : Prop := ∃ p q, s = p ++ pat ++ q

/-! ### Helper lemmas -/

/-- Reading back the path just written returns the written content. -/
theorem readFile_writeFile_self (s : Store) (p : String) (c : FileContent) :
    readFile (writeFile s p c) p = some c := by
  simp [readFile, writeFile, List.lookup]

/-- After filtering a store down to the entries at other paths, no entry
at the given path remains. -/
theorem filter_eq_filter_ne (s : Store) (p : String) :
    (s.filter (fun e => e.1 != p)).filter (fun e => e.1 == p) = [] := by
  induction s with
  | nil => rfl
  | cons a t ih =>
    by_cases h : a.1 = p
    · rw [List.filter_cons_of_neg (by simp [h])]
      exact ih
    · rw [List.filter_cons_of_pos (by simp [h]),
        List.filter_cons_of_neg (by simp [h])]
      exact ih

/-- Writing leaves exactly one file at the written path. -/
theorem countKey_writeFile_self (s : Store) (p : String) (c : FileContent) :
    countKey (writeFile s p c) p = 1 := by
  simp [countKey, writeFile, List.filter, filter_eq_filter_ne]

/-- Sanitization never produces the character `@`. -/
theorem sanitizeChars_no_at (l : List Char) : '@' ∉ sanitizeChars l := by
  induction l with
  | nil => simp [sanitizeChars]
  | cons c cs ih =>
    by_cases h : c = '@' <;> simp [sanitizeChars, h, ih]
    exact fun hc => h hc.symm

/-- Sanitization acts occurrence by occurrence: each character maps to
itself, except `@`, which maps to the four characters `_at_`. -/
theorem sanitizeChars_eq_join_map (l : List Char) :
    sanitizeChars l =
      (l.map (fun c => if c = '@' then ['_', 'a', 't', '_'] else [c])).flatten := by
  induction l with
  | nil => rfl
  | cons c cs ih =>
    by_cases h : c = '@' <;> simp [sanitizeChars, h, ih]

/-- A substring of `a` is a substring of `a ++ b`. -/
theorem strContains_append_left (a b pat : String) (h : strContains a pat) :
    strContains (a ++ b) pat := by
  obtain ⟨p, q, rfl⟩ := h
  exact ⟨p, q ++ b, by rw [String.append_assoc, String.append_assoc]⟩

/-- The error page contains the spliced error text. -/
theorem errorHtml_contains (err : String) : strContains (errorHtml err) err :=
  ⟨"\n        <html>\n            <head><title>Authentication Error</title></head>\n            <body>\n                <h1>Authentication Error</h1>\n                <p>Error: ",
    "</p>\n                <p>Please close this window and try again.</p>\n            </body>\n        </html>\n        ",
    rfl⟩

/-! ### Claim theorems -/

/-- C1: for every user identifier, `GET /token/{user_id}` with no stored
file at the token path of that identifier reports `has_token: false`;
after a successful `save_token` for that identifier it reports
`has_token: true` together with the `created_at` value read from the
stored file (which `save_token` set to the save-time timestamp). -/
theorem get_token_roundtrip (store : Store) (uid cred now_iso : String)
    (h : readFile store (token_path uid) = none) :
    get_token store uid = ⟨false, none, "No token found for user"⟩ ∧
    get_token (save_token store uid cred now_iso).1 uid =
      ⟨true, some now_iso, "Token found for user"⟩ := by
  constructor
  · simp only [get_token, token_path] at h ⊢
    rw [h]
  · simp only [get_token, save_token]
    rw [readFile_writeFile_self]
    rfl

/-- Witness for `get_token_roundtrip` at the empty store and the
identifier `u@v`. -/
theorem get_token_roundtrip_witness :
    get_token [] "u@v" = ⟨false, none, "No token found for user"⟩ ∧
    get_token (save_token [] "u@v" "cred" "2024-01-01T00:00:00").1 "u@v" =
      ⟨true, some "2024-01-01T00:00:00", "Token found for user"⟩ :=
  get_token_roundtrip [] "u@v" "cred" "2024-01-01T00:00:00" rfl

/-- C2: two successive saves for the same resolved email compute the same
storage path, leave exactly one stored file at that path, and that file
holds the token data of the second save (last write wins). -/
theorem save_token_last_write_wins (store : Store) (email c1 t1 c2 t2 : String) :
    let r1 := save_token store email c1 t1
    let r2 := save_token r1.1 email c2 t2
    r1.2 = r2.2 ∧
    countKey r2.1 r1.2 = 1 ∧
    readFile r2.1 r1.2 =
      some (FileContent.obj [("token", c2), ("created_at", t2)]) := by
  refine ⟨rfl, ?_, ?_⟩
  · exact countKey_writeFile_self ..
  · exact readFile_writeFile_self ..

/-- C3: for every identifier containing `@`, the sanitization underlying
the storage filename of `save_token` and `get_token` rewrites each
character independently, sending `@` to the four characters `_at_` and
every other character to itself, and the resulting filename contains no
`@`. -/
theorem sanitize_replaces_every_at (store : Store) (uid cred now_iso : String)
    (_h : '@' ∈ uid.data) :
    (sanitize uid).data =
      (uid.data.map (fun c => if c = '@' then ['_', 'a', 't', '_'] else [c])).flatten ∧
    '@' ∉ (tokenFileName uid).data ∧
    (save_token store uid cred now_iso).2 =
      os_path_join TOKEN_STORAGE_DIR (tokenFileName uid) := by
  refine ⟨sanitizeChars_eq_join_map uid.data, ?_, rfl⟩
  rw [tokenFileName, String.data_append]
  intro hmem
  rcases List.mem_append.1 hmem with hl | hr
  · exact sanitizeChars_no_at uid.data hl
  · simp at hr

/-- Witness for `sanitize_replaces_every_at` at the identifier `a@b`. -/
theorem sanitize_replaces_every_at_witness :
    (sanitize "a@b").data =
      (("a@b".data).map (fun c => if c = '@' then ['_', 'a', 't', '_'] else [c])).flatten ∧
    '@' ∉ (tokenFileName "a@b").data ∧
    (save_token [] "a@b" "cred" "t").2 =
      os_path_join TOKEN_STORAGE_DIR (tokenFileName "a@b") :=
  sanitize_replaces_every_at [] "a@b" "cred" "t" (by decide)

/-- C10: the sanitization is not injective: the distinct identifiers
`a@b` and `a_at_b` share one storage filename, so a save for `a@b` makes
the token lookup for `a_at_b` report `has_token: true`. -/
theorem sanitize_not_injective :
    tokenFileName "a@b" = tokenFileName "a_at_b" ∧
    ("a@b" : String) ≠ "a_at_b" ∧
    (get_token (save_token [] "a@b" "cred" "2024-01-01T00:00:00").1
      "a_at_b").has_token = true := by
  refine ⟨rfl, by decide, rfl⟩

/-- C4 counterexample: a request with the `error` query parameter present
but equal to the empty string, together with a `code` parameter, is not
answered with HTTP 400: the `if error:` truthiness test treats the empty
string as absent, the handler falls through to the exchange, and (with the
exchange succeeding) responds 200. -/
theorem auth_callback_empty_error_counterexample :
    (auth_callback (OAuthWorld.ok "cred" (some "user@example.com")) []
      "2024-01-01T00:00:00" (some "4/authcode") (some "")).response.status ≠ 400 ∧
    (auth_callback (OAuthWorld.ok "cred" (some "user@example.com")) []
      "2024-01-01T00:00:00" (some "4/authcode") (some "")).response.status = 200 ∧
    (auth_callback (OAuthWorld.ok "cred" (some "user@example.com")) []
      "2024-01-01T00:00:00" (some "4/authcode") (some "")).exchangeInvoked = true := by
  refine ⟨by decide, rfl, rfl⟩

/-- C4 (amended): for every request to `GET /auth/google` whose `error`
query parameter is present with a non-empty value, the handler returns
HTTP 400, the body contains the literal error value, and neither flow
construction nor the token exchange is performed — regardless of the
`code` parameter and of the external world. -/
theorem error_param_yields_400 (world : OAuthWorld) (store : Store)
    (now_iso : String) (code : Option String) (v : String) (hv : v ≠ "") :
    (auth_callback world store now_iso code (some v)).response.status = 400 ∧
    strContains (auth_callback world store now_iso code (some v)).response.body v ∧
    (auth_callback world store now_iso code (some v)).exchangeInvoked = false ∧
    (auth_callback world store now_iso code (some v)).store = store := by
  have hd : v.data ≠ [] := fun hdd => hv (String.ext hdd)
  have ht : truthy (some v) = true := by
    simp [truthy, List.isEmpty_iff, hd]
  have hred : auth_callback world store now_iso code (some v) =
      ⟨⟨400, errorHtml ((some v).getD "")⟩, false, store⟩ := by
    simp [auth_callback, ht]
  rw [hred]
  exact ⟨rfl, errorHtml_contains v, rfl, rfl⟩

/-- Witness for `error_param_yields_400` at `error=access_denied` with no
`code` parameter. -/
theorem error_param_yields_400_witness :
    (auth_callback (OAuthWorld.ok "cred" none) [] "t" none
      (some "access_denied")).response.status = 400 ∧
    strContains (auth_callback (OAuthWorld.ok "cred" none) [] "t" none
      (some "access_denied")).response.body "access_denied" ∧
    (auth_callback (OAuthWorld.ok "cred" none) [] "t" none
      (some "access_denied")).exchangeInvoked = false ∧
    (auth_callback (OAuthWorld.ok "cred" none) [] "t" none
      (some "access_denied")).store = [] :=
  error_param_yields_400 (OAuthWorld.ok "cred" none) [] "t" none
    "access_denied" (by decide)

/-- C5: a request to `GET /auth/google` with neither an `error` nor a
`code` parameter is answered with HTTP 400 ("No authorization code
received"), the exchange step (flow construction and `fetch_token`) is
never entered, and the store is untouched — for every external world. -/
theorem missing_code_yields_400_without_exchange (world : OAuthWorld)
    (store : Store) (now_iso : String) :
    (auth_callback world store now_iso none none).response =
      ⟨400, "No authorization code received"⟩ ∧
    (auth_callback world store now_iso none none).exchangeInvoked = false ∧
    (auth_callback world store now_iso none none).store = store :=
  ⟨rfl, rfl, rfl⟩

/-- C6: `GET /token/{user_id}` is total and degrades gracefully: a store
with no file at the token path and a store with an unreadable file there
both yield `has_token: false` with no `created_at`, identical except for
the message text ("No token found for user" versus the diagnostic
"Error reading token: ..."). -/
theorem get_token_degrades_gracefully (store store2 : Store) (uid e : String)
    (hmiss : readFile store (token_path uid) = none)
    (hbad : readFile store2 (token_path uid) = some (FileContent.malformed e)) :
    get_token store uid = ⟨false, none, "No token found for user"⟩ ∧
    get_token store2 uid = ⟨false, none, "Error reading token: " ++ e⟩ ∧
    (get_token store uid).has_token = (get_token store2 uid).has_token ∧
    (get_token store uid).created_at = (get_token store2 uid).created_at := by
  simp only [get_token, token_path] at hmiss hbad ⊢
  rw [hmiss, hbad]
  exact ⟨rfl, rfl, rfl, rfl⟩

/-- Witness for `get_token_degrades_gracefully`: the empty store versus a
store holding an unreadable file at the token path of `u`. -/
theorem get_token_degrades_gracefully_witness :
    get_token [] "u" = ⟨false, none, "No token found for user"⟩ ∧
    get_token [(token_path "u", FileContent.malformed "boom")] "u" =
      ⟨false, none, "Error reading token: " ++ "boom"⟩ ∧
    (get_token [] "u").has_token =
      (get_token [(token_path "u", FileContent.malformed "boom")] "u").has_token ∧
    (get_token [] "u").created_at =
      (get_token [(token_path "u", FileContent.malformed "boom")] "u").created_at :=
  get_token_degrades_gracefully [] [(token_path "u", FileContent.malformed "boom")]
    "u" "boom" rfl (by decide)

/-- C7 counterexample: for the identifier `/evil`, whose sanitized
filename is an absolute path, `os.path.join` discards the storage
directory: the stored path is `/evil.json`, not the storage directory
followed by the filename, so the persisted file is not under the storage
directory. -/
theorem save_token_outside_storage_dir :
    (save_token [] "/evil" "cred" "2024-01-01T00:00:00").2 ≠
      TOKEN_STORAGE_DIR ++ "/" ++ tokenFileName "/evil" ∧
    (save_token [] "/evil" "cred" "2024-01-01T00:00:00").2 = "/evil.json" := by
  refine ⟨by decide, rfl⟩

/-- C7 (amended): for every successful save whose sanitized filename is
not an absolute path, the persisted unit is a single JSON file at the
storage directory joined with the filename (the sanitized identifier
followed by `.json`), whose content is an object with exactly the two
keys `token` (the serialized credential string) and `created_at` (the
save-time ISO-8601 timestamp). -/
theorem save_token_persisted_layout (store : Store) (uid cred now_iso : String)
    (h : isAbsolute (tokenFileName uid) = false) :
    (save_token store uid cred now_iso).2 =
      TOKEN_STORAGE_DIR ++ "/" ++ tokenFileName uid ∧
    readFile (save_token store uid cred now_iso).1
      ((save_token store uid cred now_iso).2) =
      some (FileContent.obj [("token", cred), ("created_at", now_iso)]) ∧
    countKey (save_token store uid cred now_iso).1
      ((save_token store uid cred now_iso).2) = 1 := by
  refine ⟨?_, readFile_writeFile_self .., countKey_writeFile_self ..⟩
  simp [save_token, os_path_join, h]

/-- Witness for `save_token_persisted_layout` at the identifier
`alice@example.com`. -/
theorem save_token_persisted_layout_witness :
    (save_token [] "alice@example.com" "cred" "2024-01-01T00:00:00").2 =
      TOKEN_STORAGE_DIR ++ "/" ++ tokenFileName "alice@example.com" ∧
    readFile (save_token [] "alice@example.com" "cred" "2024-01-01T00:00:00").1
      ((save_token [] "alice@example.com" "cred" "2024-01-01T00:00:00").2) =
      some (FileContent.obj
        [("token", "cred"), ("created_at", "2024-01-01T00:00:00")]) ∧
    countKey (save_token [] "alice@example.com" "cred" "2024-01-01T00:00:00").1
      ((save_token [] "alice@example.com" "cred" "2024-01-01T00:00:00").2) = 1 :=
  save_token_persisted_layout [] "alice@example.com" "cred"
    "2024-01-01T00:00:00" rfl

/-- C8: every authorization URL built by `/generate-auth-url` carries
`access_type=offline` and `prompt=consent`, so the provider issues a
refresh token even on repeat authorizations. -/
theorem authorization_url_offline_consent (email lib_state : String) :
    strContains (generate_auth_url email lib_state).auth_url
      "access_type=offline" ∧
    strContains (generate_auth_url email lib_state).auth_url
      "prompt=consent" := by
  have hurl : (generate_auth_url email lib_state).auth_url =
      "https://accounts.google.com/o/oauth2/auth?response_type=code&client_id=CLIENT_ID&redirect_uri=https://taskiq.io/auth/google&scope=openid+email+mail+calendar&access_type=offline&include_granted_scopes=true&prompt=consent&state="
        ++ lib_state := by
    show authorization_url "offline" "true" "consent" lib_state = _
    simp only [authorization_url, ← String.append_assoc]
    rfl
  rw [hurl]
  constructor
  · exact strContains_append_left _ _ _
      ⟨"https://accounts.google.com/o/oauth2/auth?response_type=code&client_id=CLIENT_ID&redirect_uri=https://taskiq.io/auth/google&scope=openid+email+mail+calendar&",
        "&include_granted_scopes=true&prompt=consent&state=", rfl⟩
  · exact strContains_append_left _ _ _
      ⟨"https://accounts.google.com/o/oauth2/auth?response_type=code&client_id=CLIENT_ID&redirect_uri=https://taskiq.io/auth/google&scope=openid+email+mail+calendar&access_type=offline&include_granted_scopes=true&",
        "&state=", rfl⟩

/-- C9: the authorization URL produced by `/generate-auth-url` does not
depend on the `email` query parameter — two requests differing only in
the email, with the library drawing the same state, yield the same URL —
and the email is only echoed back in the JSON response. -/
theorem auth_url_independent_of_email (e1 e2 lib_state : String) :
    (generate_auth_url e1 lib_state).auth_url =
      (generate_auth_url e2 lib_state).auth_url ∧
    (generate_auth_url e1 lib_state).email = e1 :=
  ⟨rfl, rfl⟩

end TaskIQ
